import Mathlib

/-!
SecureShare: the ephemeral credentialed storage engine.

A shallow embedding of the server core of the repository
(src/server/routes.ts: the Express route handlers and the SqliteStorage
class). Timestamps (Date.now(), in milliseconds) are modelled by Nat;
the JavaScript arithmetic `3 - failedAttempts`, which can go negative, by
Int. The SQLite tables are modelled by lists of rows; `DELETE FROM slots`
removes the slot's `files` and `text_contents` rows per the schema's
`ON DELETE CASCADE` declaration. `argon2.hash` and `argon2.verify` are
opaque to the server logic and are passed as function parameters
(`argon2.verify` is wrapped in try/catch in the source and yields `false`
on any fault, so a total Bool-valued parameter is faithful). The
`Math.random` draws of the identifier generator are passed as explicit
`Fin` arguments.
-/

namespace SecureShare

/-- A row of the `slots` table (shared/schema.ts slotSchema, inserted by
`SqliteStorage.createSlot`). -/
structure Slot where
  id : String
  passwordHash : String
  createdAt : Nat
  expiresAt : Nat
  failedAttempts : Nat
  deriving DecidableEq

/-- A row of the `files` table (shared/schema.ts fileSchema). -/
structure FileData where
  id : String
  slotId : String
  filename : String
  originalName : String
  size : Nat
  mimeType : Option String
  uploadedAt : Nat
  deriving DecidableEq

/-- A row of the `text_contents` table (shared/schema.ts
textContentSchema). -/
structure TextContent where
  slotId : String
  content : String
  deriving DecidableEq

/-- The slot shape disclosed to callers (shared/schema.ts
publicSlotSchema): `id`, `createdAt`, `expiresAt` and nothing else. -/
structure PublicSlot where
  id : String
  createdAt : Nat
  expiresAt : Nat
  deriving DecidableEq

/-- The state of the SQLite database plus the uploads directory:
`blobs` is the set of storage filenames currently present on disk. -/
@[ext]
structure StoreState where
  slots : List Slot
  files : List FileData
  texts : List TextContent
  blobs : List String
  deriving DecidableEq

/-- `SqliteStorage.getSlot`: `SELECT * FROM slots WHERE id = ?`
(`id` is the primary key; the first matching row). -/
def getSlot (s : StoreState) (slotId : String) : Option Slot :=
  s.slots.find? (fun sl => sl.id == slotId)

/-- `SqliteStorage.getFiles`: `SELECT * FROM files WHERE slotId = ?`. -/
def getFiles (s : StoreState) (slotId : String) : List FileData :=
  s.files.filter (fun f => f.slotId == slotId)

/-- `SqliteStorage.getFile`: `SELECT * FROM files WHERE id = ?`. -/
def getFile (s : StoreState) (fileId : String) : Option FileData :=
  s.files.find? (fun f => f.id == fileId)

/-- `SqliteStorage.getTextContent`:
`SELECT * FROM text_contents WHERE slotId = ?`. -/
def getTextContent (s : StoreState) (slotId : String) : Option TextContent :=
  s.texts.find? (fun t => t.slotId == slotId)

/-- `SqliteStorage.verifySlotPassword`: fetch the slot and run
`argon2.verify` (the `verify` parameter); `false` when the slot is
gone, and `false` rather than a raised fault on a bad hash (the source
wraps the call in try/catch). -/
def verifySlotPassword (verify : String → String → Bool) (s : StoreState)
    (slotId password : String) : Bool :=
  match getSlot s slotId with
  | none => false
  | some slot => verify slot.passwordHash password

/-- The row update of `SqliteStorage.incrementFailedAttempts`:
`UPDATE slots SET failedAttempts = failedAttempts + 1 WHERE id = ?`. -/
def bumpSlots (slots : List Slot) (slotId : String) : List Slot :=
  slots.map (fun sl =>
    if sl.id = slotId then { sl with failedAttempts := sl.failedAttempts + 1 } else sl)

/-- `SqliteStorage.incrementFailedAttempts`: the atomic SQL increment,
then a re-read returning `slot?.failedAttempts || 0` (0 when the row is
gone). -/
def incrementFailedAttempts (s : StoreState) (slotId : String) :
    StoreState × Nat :=
  let s' := { s with slots := bumpSlots s.slots slotId }
  (s', match getSlot s' slotId with
       | some sl => sl.failedAttempts
       | none => 0)

/-- `SqliteStorage.addFile`: `INSERT INTO files ...`. -/
def addFile (s : StoreState) (f : FileData) : StoreState :=
  { s with files := f :: s.files }

/-- `SqliteStorage.addTextContent`:
`INSERT OR REPLACE INTO text_contents ...` (upsert keyed on `slotId`). -/
def addTextContent (s : StoreState) (t : TextContent) : StoreState :=
  { s with texts := t :: s.texts.filter (fun t0 => ! (t0.slotId == t.slotId)) }

/-- `SqliteStorage.deleteSlot`: unlink each of the slot's blobs that is
present on disk (absence tolerated by the `fs.existsSync` guard), then
`DELETE FROM slots WHERE id = ?`, which removes the slot's `files` and
`text_contents` rows per the schema's `ON DELETE CASCADE`. -/
def deleteSlot (s : StoreState) (slotId : String) : StoreState :=
  let fs := getFiles s slotId
  { slots := s.slots.filter (fun sl => ! (sl.id == slotId)),
    files := s.files.filter (fun f => ! (f.slotId == slotId)),
    texts := s.texts.filter (fun t => ! (t.slotId == slotId)),
    blobs := s.blobs.filter (fun b => ! fs.any (fun f => f.filename == b)) }

/-- `SqliteStorage.getExpiredSlots`:
`SELECT * FROM slots WHERE expiresAt <= ?` at `Date.now()`. -/
def getExpiredSlots (s : StoreState) (now : Nat) : List Slot :=
  s.slots.filter (fun sl => decide (sl.expiresAt ≤ now))

/-- `SqliteStorage.deleteExpiredSlots` (the hourly sweep body): delete
every expired slot through the cascading `deleteSlot` path. -/
def deleteExpiredSlots (s : StoreState) (now : Nat) : StoreState :=
  (getExpiredSlots s now).foldl (fun st sl => deleteSlot st sl.id) s

/-- `SqliteStorage.generateSlotId`: a decimal digit string whose length
is `Math.floor(Math.random() * 3) + 6` and whose characters are
`Math.floor(Math.random() * 10)` digits; the random draws are the
arguments. -/
def generateSlotId (len3 : Fin 3) (digit : Nat → Fin 10) : String :=
  String.mk ((List.range (len3.val + 6)).map (fun i => Char.ofNat (48 + (digit i).val)))

/-- The retry loop of `SqliteStorage.createSlot`: take the first
candidate id with no `slots` row
(`while ... SELECT id FROM slots WHERE id = ?`). `none` when the finite
candidate stream is exhausted (the source draws forever). -/
def freshSlotId (s : StoreState) : List String → Option String
  | [] => none
  | c :: rest =>
    if s.slots.any (fun sl => sl.id == c) then freshSlotId s rest else some c

/-- `SqliteStorage.createSlot`: draw candidate ids from
`generateSlotId` until one is free of collisions with live slots, hash
the password with `argon2.hash` (the `hash` parameter), and insert the
slot with `createdAt = Date.now()` and
`expiresAt = createdAt + 24 * 60 * 60 * 1000`. -/
def createSlot (hash : String → String) (s : StoreState)
    (seeds : List (Fin 3 × (Nat → Fin 10))) (password : String) (now : Nat) :
    Option (StoreState × Slot) :=
  match freshSlotId s (seeds.map (fun p => generateSlotId p.1 p.2)) with
  | none => none
  | some slotId =>
    let slot : Slot :=
      { id := slotId, passwordHash := hash password, createdAt := now,
        expiresAt := now + 24 * 60 * 60 * 1000, failedAttempts := 0 }
    some ({ s with slots := slot :: s.slots }, slot)

/-- `sanitizeSlot` (routes.ts): the only slot fields ever put in a
response body are `id`, `createdAt` and `expiresAt`; the `PublicSlot`
shape has no `passwordHash` or `failedAttempts` field. -/
def sanitizeSlot (slot : Slot) : PublicSlot :=
  { id := slot.id, createdAt := slot.createdAt, expiresAt := slot.expiresAt }

/-- The route handlers' responses, by status code and body shape. -/
inductive ApiResponse where
  | validationError
  | serverError
  | createdSlot (slotId : String) (expiresAt : Nat)
  | notFound
  | expired
  | invalidPasswordMsg (remaining : Int)
  | invalidPassword
  | lockedDeleted
  | accessOk (slot : PublicSlot) (files : List FileData) (text : Option TextContent)
  | uploadOk
  | deleteOk
  | downloadFile (filename originalName : String)
  | fileNotFound
  | fileMissing
  deriving DecidableEq

/-- POST `/api/slot`: reject a password shorter than 4 characters before
touching storage, else create the slot and answer
`{slotId, expiresAt}`. The `serverError` arm stands for the candidate
stream running out, which the source's unbounded retry loop never
reports. -/
def createSlotRoute (hash : String → String) (s : StoreState)
    (seeds : List (Fin 3 × (Nat → Fin 10))) (password : String) (now : Nat) :
    StoreState × ApiResponse :=
  if password.length < 4 then (s, .validationError)
  else
    match createSlot hash s seeds password now with
    | none => (s, .serverError)
    | some (s', slot) => (s', .createdSlot slot.id slot.expiresAt)

/-- An inbound multipart file of POST `/api/upload/:slotId`: multer has
already written its bytes under a fresh storage-generated `filename`;
the record id is a fresh `randomBytes(16)` hex string. -/
structure FileUpload where
  id : String
  filename : String
  originalName : String
  size : Nat
  mimeType : Option String
  deriving DecidableEq

/-- Register one uploaded file: its blob is on disk under the storage
name and `storage.addFile` inserts the record with
`uploadedAt = Date.now()`. -/
def storeUpload (st : StoreState) (slotId : String) (now : Nat)
    (fu : FileUpload) : StoreState :=
  addFile { st with blobs := fu.filename :: st.blobs }
    { id := fu.id, slotId := slotId, filename := fu.filename,
      originalName := fu.originalName, size := fu.size,
      mimeType := fu.mimeType, uploadedAt := now }

/-- POST `/api/upload/:slotId`: 404 when the slot is unknown; lazy
expiry check (`Date.now() > slot.expiresAt` deletes the slot and answers
410); 401 on a wrong password, with no attempt counted on this path;
otherwise register every file and upsert the text when it is non-empty
after trimming (`text && text.trim()`). -/
def uploadSlot (verify : String → String → Bool) (s : StoreState)
    (slotId password : String) (fups : List FileUpload)
    (text : Option String) (now : Nat) : StoreState × ApiResponse :=
  match getSlot s slotId with
  | none => (s, .notFound)
  | some slot =>
    if now > slot.expiresAt then (deleteSlot s slotId, .expired)
    else if ! verifySlotPassword verify s slotId password then (s, .invalidPassword)
    else
      let s1 := fups.foldl (fun st fu => storeUpload st slotId now fu) s
      let s2 := match text with
        | some t => if t.trim = "" then s1 else addTextContent s1 { slotId := slotId, content := t }
        | none => s1
      (s2, .uploadOk)

/-- POST `/api/slot/:slotId` (access): 404 when the slot is unknown;
lazy expiry check; on a wrong password increment `failedAttempts` and,
when `3 - failedAttempts <= 0`, delete the slot and answer the 403
"Too many failed attempts. Slot deleted.", else answer 401 with the
remaining-attempts count; on success answer the sanitized slot, its file
records and its text record. -/
def accessSlot (verify : String → String → Bool) (s : StoreState)
    (slotId password : String) (now : Nat) : StoreState × ApiResponse :=
  match getSlot s slotId with
  | none => (s, .notFound)
  | some slot =>
    if now > slot.expiresAt then (deleteSlot s slotId, .expired)
    else if ! verifySlotPassword verify s slotId password then
      let p := incrementFailedAttempts s slotId
      let remaining : Int := 3 - (p.2 : Int)
      if remaining ≤ 0 then (deleteSlot p.1 slotId, .lockedDeleted)
      else (p.1, .invalidPasswordMsg remaining)
    else
      (s, .accessOk (sanitizeSlot slot) (getFiles s slotId) (getTextContent s slotId))

/-- GET `/api/download/:slotId/:fileId`: 404 when the slot is unknown;
lazy expiry check; 401 on a wrong password (no attempt counted); 404
when the file is unknown or belongs to another slot; 404 when its blob
is missing on disk; else stream the blob under the original name. -/
def downloadRoute (verify : String → String → Bool) (s : StoreState)
    (slotId fileId password : String) (now : Nat) : StoreState × ApiResponse :=
  match getSlot s slotId with
  | none => (s, .notFound)
  | some slot =>
    if now > slot.expiresAt then (deleteSlot s slotId, .expired)
    else if ! verifySlotPassword verify s slotId password then (s, .invalidPassword)
    else
      match getFile s fileId with
      | none => (s, .fileNotFound)
      | some f =>
        if ! (f.slotId == slotId) then (s, .fileNotFound)
        else if s.blobs.contains f.filename then (s, .downloadFile f.filename f.originalName)
        else (s, .fileMissing)

/-- DELETE `/api/slot/:slotId`: 404 when the slot is unknown; lazy
expiry check; 401 on a wrong password (no attempt counted); else delete
the slot through the cascading path and acknowledge. -/
def deleteRoute (verify : String → String → Bool) (s : StoreState)
    (slotId password : String) (now : Nat) : StoreState × ApiResponse :=
  match getSlot s slotId with
  | none => (s, .notFound)
  | some slot =>
    if now > slot.expiresAt then (deleteSlot s slotId, .expired)
    else if ! verifySlotPassword verify s slotId password then (s, .invalidPassword)
    else (deleteSlot s slotId, .deleteOk)

/-- The lockout-relevant shared state for the interleaving analysis of
two simultaneous wrong-password access requests: the slot row's
`failedAttempts` (`none` once the row is deleted) and how many
`DELETE FROM slots` runs actually removed the row. -/
structure LockoutState where
  counter : Option Nat
  effectiveDeletes : Nat
  deriving DecidableEq

/-- One request handler's progress through the wrong-password arm of
POST `/api/slot/:slotId`. `pc` 0: about to run the atomic
`UPDATE ... failedAttempts + 1`; 1: about to re-read the row
(`slot?.failedAttempts || 0`); 2: about to branch on
`3 - failedAttempts <= 0`; 3: about to run `deleteSlot`; 4: done.
`locked = some true` is the 403 "slot deleted" answer, `some false` the
401 remaining-attempts answer. -/
structure LockoutProc where
  pc : Nat
  readVal : Nat
  locked : Option Bool
  deriving DecidableEq

/-- One atomic step of a handler on the wrong-password arm. Each SQL
statement is atomic (SQLite serializes writers); the points between
them can interleave with the other handler. -/
def lockoutStep (st : LockoutState) (p : LockoutProc) :
    LockoutState × LockoutProc :=
  match p.pc with
  | 0 => ({ st with counter := st.counter.map (· + 1) }, { p with pc := 1 })
  | 1 => (st, { p with pc := 2, readVal := st.counter.getD 0 })
  | 2 =>
    if (3 : Int) - (p.readVal : Int) ≤ 0 then
      (st, { p with pc := 3, locked := some true })
    else (st, { p with pc := 4, locked := some false })
  | 3 =>
    ({ counter := none,
       effectiveDeletes :=
         st.effectiveDeletes + (if st.counter.isSome then 1 else 0) },
     { p with pc := 4 })
  | _ => (st, p)

/-- Run a schedule: `true` steps handler A, `false` steps handler B. -/
def lockoutRun : List Bool → LockoutState × LockoutProc × LockoutProc →
    LockoutState × LockoutProc × LockoutProc
  | [], cfg => cfg
  | c :: rest, (st, a, b) =>
    if c then
      let q := lockoutStep st a
      lockoutRun rest (q.1, q.2, b)
    else
      let q := lockoutStep st b
      lockoutRun rest (q.1, a, q.2)

/-- Merges of `a` scheduler grants to handler A with `b` grants to
handler B, recursing on explicit fuel so the kernel can evaluate it. -/
def interleavingsAux : Nat → Nat → Nat → List (List Bool)
  | 0, _, _ => []
  | _ + 1, 0, b => [List.replicate b false]
  | _ + 1, a + 1, 0 => [List.replicate (a + 1) true]
  | fuel + 1, a + 1, b + 1 =>
    (interleavingsAux fuel a (b + 1)).map (true :: ·) ++
      (interleavingsAux fuel (a + 1) b).map (false :: ·)

/-- All interleavings of `a` scheduler grants to handler A with `b`
grants to handler B. -/
def interleavings (a b : Nat) : List (List Bool) :=
  interleavingsAux (a + b + 1) a b

/-- The configuration of two wrong-password requests racing on a slot
whose `failedAttempts` is 2 and has never been deleted. -/
def lockoutInit : LockoutState × LockoutProc × LockoutProc :=
  (⟨some 2, 0⟩, ⟨0, 0, none⟩, ⟨0, 0, none⟩)

/-- A hash oracle standing in for `argon2.hash` in concrete runs. -/
def demoHash : String → String := fun p => "hash:" ++ p

/-- A verify oracle standing in for `argon2.verify` in concrete runs:
accepts exactly the password hashed by `demoHash`. -/
def demoVerify : String → String → Bool := fun h p => h == "hash:" ++ p

/-- A live slot two failed attempts from lockout. -/
def lockSlot : Slot :=
  { id := "123456", passwordHash := "hash:pw", createdAt := 0,
    expiresAt := 86400000, failedAttempts := 2 }

/-- A store holding just `lockSlot`. -/
def lockState : StoreState :=
  { slots := [lockSlot], files := [], texts := [], blobs := [] }

/-- A fresh slot with no failed attempts. -/
def cexSlot : Slot :=
  { id := "654321", passwordHash := "hash:pw", createdAt := 0,
    expiresAt := 86400000, failedAttempts := 0 }

/-- A store holding just `cexSlot`, one file record and its blob. -/
def cexState : StoreState :=
  { slots := [cexSlot],
    files := [{ id := "f1", slotId := "654321", filename := "blob1",
                originalName := "a.txt", size := 3, mimeType := some "text/plain",
                uploadedAt := 1 }],
    texts := [], blobs := ["blob1"] }

/-- The empty store. -/
def emptyState : StoreState :=
  { slots := [], files := [], texts := [], blobs := [] }

/-- A slot whose expiry (100 ms) is long past. -/
def expSlot : Slot :=
  { id := "111111", passwordHash := "hash:pw", createdAt := 0,
    expiresAt := 100, failedAttempts := 0 }

/-- A store holding just `expSlot`. -/
def expState : StoreState :=
  { slots := [expSlot], files := [], texts := [], blobs := [] }

/-- One random seed drawing length 6 and the digit 5 throughout. -/
def demoSeeds : List (Fin 3 × (Nat → Fin 10)) := [(0, fun _ => 5)]

/-- The slot `createSlot demoHash emptyState demoSeeds "abcd" 0`
creates. -/
def demoCreatedSlot : Slot :=
  { id := "555555", passwordHash := "hash:abcd", createdAt := 0,
    expiresAt := 86400000, failedAttempts := 0 }

/-- Slot evolution across one storage-mutating operation: every
surviving slot row comes from a pre-state row with the same `id`,
`passwordHash`, `createdAt` and `expiresAt`, and with `failedAttempts`
unchanged or exactly one larger. -/
def slotEvolution (s s' : StoreState) : Prop :=
  ∀ sl' ∈ s'.slots, ∃ sl ∈ s.slots,
    sl'.id = sl.id ∧ sl'.passwordHash = sl.passwordHash ∧
    sl'.createdAt = sl.createdAt ∧ sl'.expiresAt = sl.expiresAt ∧
    (sl'.failedAttempts = sl.failedAttempts ∨
      sl'.failedAttempts = sl.failedAttempts + 1)

/-- `find?` misses a list from which everything satisfying the
predicate was filtered away. -/
theorem find?_filter_not {α : Type} (l : List α) (p : α → Bool) :
    (l.filter (fun x => ! p x)).find? p = none := by
  apply List.find?_eq_none.mpr
  intro x hx
  have h1 := (List.mem_filter.mp hx).2
  simp only [Bool.not_eq_true'] at h1
  simp [h1]

/-- Filtering for a predicate after filtering for its negation leaves
nothing. -/
theorem filter_filter_not {α : Type} (l : List α) (p : α → Bool) :
    (l.filter (fun x => ! p x)).filter p = [] := by
  rw [List.filter_eq_nil_iff]
  intro x hx
  have h1 := (List.mem_filter.mp hx).2
  simp only [Bool.not_eq_true'] at h1
  simp [h1]

/-- Filtering twice for one predicate is filtering once. -/
theorem filter_self_idem {α : Type} (l : List α) (p : α → Bool) :
    (l.filter p).filter p = l.filter p := by
  induction l with
  | nil => rfl
  | cons hd tl ih =>
    by_cases h : p hd = true
    · simp [List.filter_cons, h, ih]
    · simp only [Bool.not_eq_true] at h
      simp [List.filter_cons, h, ih]

/-- The row update of `incrementFailedAttempts` moves the first row of
the slot's id to its bumped form and nothing else into its place. -/
theorem find?_bumpSlots (l : List Slot) (slotId : String) :
    (bumpSlots l slotId).find? (fun sl => sl.id == slotId) =
      (l.find? (fun sl => sl.id == slotId)).map
        (fun sl => { sl with failedAttempts := sl.failedAttempts + 1 }) := by
  induction l with
  | nil => rfl
  | cons hd tl ih =>
    simp only [bumpSlots, List.map_cons] at ih ⊢
    by_cases h : hd.id = slotId
    · have hb : (hd.id == slotId) = true := by simp [h]
      simp [List.find?, h, hb]
    · have hb : (hd.id == slotId) = false := by simp [h]
      simp [List.find?, h, hb, ih]

/-- Fetching the slot after the SQL increment yields the bumped row. -/
theorem getSlot_bumpSlots (s : StoreState) (slotId : String) (slot : Slot)
    (h : getSlot s slotId = some slot) :
    getSlot { s with slots := bumpSlots s.slots slotId } slotId =
      some { slot with failedAttempts := slot.failedAttempts + 1 } := by
  show (bumpSlots s.slots slotId).find? _ = _
  rw [find?_bumpSlots]
  rw [show s.slots.find? (fun sl => sl.id == slotId) = some slot from h]
  rfl

/-- `incrementFailedAttempts` on a present slot: the store gets the
bumped row and the returned count is the old count plus one. -/
theorem incrementFailedAttempts_spec (s : StoreState) (slotId : String)
    (slot : Slot) (h : getSlot s slotId = some slot) :
    incrementFailedAttempts s slotId =
      ({ s with slots := bumpSlots s.slots slotId },
       slot.failedAttempts + 1) := by
  have h1 := getSlot_bumpSlots s slotId slot h
  simp [incrementFailedAttempts, h1]

/-- After `deleteSlot` the slot's row is gone. -/
theorem getSlot_deleteSlot (s : StoreState) (slotId : String) :
    getSlot (deleteSlot s slotId) slotId = none :=
  find?_filter_not s.slots (fun sl => sl.id == slotId)

/-- After `deleteSlot` the slot's text row is gone. -/
theorem getTextContent_deleteSlot (s : StoreState) (slotId : String) :
    getTextContent (deleteSlot s slotId) slotId = none :=
  find?_filter_not s.texts (fun t => t.slotId == slotId)

/-- After `deleteSlot` the slot has no file rows. -/
theorem getFiles_deleteSlot (s : StoreState) (slotId : String) :
    getFiles (deleteSlot s slotId) slotId = [] :=
  filter_filter_not s.files (fun f => f.slotId == slotId)

/-- Every slot row surviving `deleteSlot` was a row before. -/
theorem deleteSlot_subset (s : StoreState) (slotId : String) :
    ∀ sl ∈ (deleteSlot s slotId).slots, sl ∈ s.slots := by
  intro sl h
  exact (List.mem_filter.mp h).1

/-- An access against an id with no slot row answers 404 and leaves the
store alone. -/
theorem accessSlot_of_getSlot_none (verify : String → String → Bool)
    (s : StoreState) (slotId password : String) (now : Nat)
    (h : getSlot s slotId = none) :
    accessSlot verify s slotId password now = (s, .notFound) := by
  simp [accessSlot, h]

/-- A store evolves trivially to itself. -/
theorem slotEvolution_refl (s : StoreState) : slotEvolution s s :=
  fun sl' h => ⟨sl', h, rfl, rfl, rfl, rfl, Or.inl rfl⟩

/-- A step that leaves the `slots` table untouched is a slot evolution. -/
theorem slotEvolution_of_slots_eq {s s' : StoreState}
    (h : s'.slots = s.slots) : slotEvolution s s' :=
  fun sl' h' => ⟨sl', h ▸ h', rfl, rfl, rfl, rfl, Or.inl rfl⟩

/-- A step that only drops rows is a slot evolution. -/
theorem slotEvolution_of_subset {s s' : StoreState}
    (h : ∀ sl ∈ s'.slots, sl ∈ s.slots) : slotEvolution s s' :=
  fun sl' h' => ⟨sl', h sl' h', rfl, rfl, rfl, rfl, Or.inl rfl⟩

/-- Dropping rows after a slot evolution is still a slot evolution. -/
theorem slotEvolution_subset_trans {s t u : StoreState}
    (h1 : slotEvolution s t) (h2 : ∀ sl ∈ u.slots, sl ∈ t.slots) :
    slotEvolution s u :=
  fun sl' h' => h1 sl' (h2 sl' h')

/-- The SQL increment is a slot evolution: the targeted row keeps its
id, hash and timestamps and gains one failed attempt. -/
theorem slotEvolution_bump (s : StoreState) (slotId : String) :
    slotEvolution s { s with slots := bumpSlots s.slots slotId } := by
  intro sl' h'
  simp only [bumpSlots] at h'
  obtain ⟨sl, hm, rfl⟩ := List.mem_map.mp h'
  by_cases h : sl.id = slotId
  · exact ⟨sl, hm, by simp [h]⟩
  · exact ⟨sl, hm, by simp [h]⟩

/-- Every slot surviving the sweep's fold of deletions was there
before. -/
theorem foldl_delete_subset (l : List Slot) :
    ∀ (s : StoreState) (sl : Slot),
      sl ∈ (l.foldl (fun st x => deleteSlot st x.id) s).slots →
      sl ∈ s.slots := by
  induction l with
  | nil => intro s sl h; exact h
  | cons hd tl ih =>
    intro s sl h
    rw [List.foldl_cons] at h
    exact deleteSlot_subset s hd.id sl (ih _ sl h)

/-- Once a slot id has no row, further deletions keep it that way. -/
theorem getSlot_none_mono (s : StoreState) (i slotId : String)
    (h : getSlot s slotId = none) :
    getSlot (deleteSlot s i) slotId = none := by
  apply List.find?_eq_none.mpr
  intro sl hsl
  exact List.find?_eq_none.mp h sl (deleteSlot_subset s i sl hsl)

/-- The sweep's fold erases every id it is asked to erase. -/
theorem foldl_delete_getSlot_none (l : List Slot) :
    ∀ (s : StoreState) (slotId : String),
      ((∃ x ∈ l, x.id = slotId) ∨ getSlot s slotId = none) →
      getSlot (l.foldl (fun st x => deleteSlot st x.id) s) slotId = none := by
  induction l with
  | nil =>
    intro s slotId h
    rcases h with ⟨x, hx, _⟩ | h
    · cases hx
    · exact h
  | cons hd tl ih =>
    intro s slotId h
    rw [List.foldl_cons]
    rcases h with ⟨x, hx, hid⟩ | h
    · rcases List.mem_cons.mp hx with rfl | hx'
      · apply ih
        right
        rw [hid]
        exact getSlot_deleteSlot s slotId
      · exact ih _ _ (Or.inl ⟨x, hx', hid⟩)
    · exact ih _ _ (Or.inr (getSlot_none_mono s hd.id slotId h))

/-- A slot row found for an id bears that id. -/
theorem getSlot_id {s : StoreState} {slotId : String} {slot : Slot}
    (h : getSlot s slotId = some slot) : slot.id = slotId := by
  have h1 := List.find?_some h
  simpa using h1

/-- A slot row found for an id is a row of the table. -/
theorem getSlot_mem {s : StoreState} {slotId : String} {slot : Slot}
    (h : getSlot s slotId = some slot) : slot ∈ s.slots :=
  List.mem_of_find?_eq_some h

/-- The sweep erases any row that is expired at its reading of the
clock. -/
theorem getSlot_deleteExpiredSlots (s : StoreState) (now : Nat)
    (slotId : String) (slot : Slot)
    (hfind : getSlot s slotId = some slot) (hexp : slot.expiresAt ≤ now) :
    getSlot (deleteExpiredSlots s now) slotId = none := by
  apply foldl_delete_getSlot_none
  left
  exact ⟨slot,
    List.mem_filter.mpr ⟨getSlot_mem hfind, by simpa using hexp⟩,
    getSlot_id hfind⟩

/-- Registering uploads does not touch the `slots` table. -/
theorem foldl_storeUpload_slots (fups : List FileUpload) (slotId : String)
    (now : Nat) :
    ∀ st : StoreState,
      (fups.foldl (fun st fu => storeUpload st slotId now fu) st).slots =
        st.slots := by
  induction fups with
  | nil => intro st; rfl
  | cons hd tl ih =>
    intro st
    rw [List.foldl_cons, ih]
    rfl

/-- Every digit seed yields a digit character. -/
theorem digit_char_isDigit : ∀ v : Fin 10,
    (Char.ofNat (48 + v.val)).isDigit = true := by decide

/-- `generateSlotId` emits exactly `len3 + 6` characters. -/
theorem generateSlotId_length (len3 : Fin 3) (digit : Nat → Fin 10) :
    (generateSlotId len3 digit).length = len3.val + 6 := by
  simp [generateSlotId, String.length]

/-- `generateSlotId` emits decimal digits only. -/
theorem generateSlotId_digits (len3 : Fin 3) (digit : Nat → Fin 10) :
    ∀ c ∈ (generateSlotId len3 digit).data, c.isDigit = true := by
  intro c hc
  simp only [generateSlotId, String.data, List.mem_map, List.mem_range] at hc
  obtain ⟨i, _, rfl⟩ := hc
  exact digit_char_isDigit (digit i)

/-- The retry loop only answers with a candidate free of collisions
with live slots. -/
theorem freshSlotId_spec (s : StoreState) :
    ∀ (cands : List String) (c : String), freshSlotId s cands = some c →
      c ∈ cands ∧ ∀ sl ∈ s.slots, ¬ sl.id = c := by
  intro cands
  induction cands with
  | nil => intro c h; cases h
  | cons hd tl ih =>
    intro c h
    unfold freshSlotId at h
    cases hany : s.slots.any (fun sl => sl.id == hd) with
    | true =>
      rw [hany] at h
      simp only [if_true] at h
      obtain ⟨hmem, hfree⟩ := ih c h
      exact ⟨List.mem_cons_of_mem _ hmem, hfree⟩
    | false =>
      rw [hany] at h
      simp only [Bool.false_eq_true, if_false, Option.some.injEq] at h
      subst h
      refine ⟨List.mem_cons_self _ _, ?_⟩
      intro sl hm hEq
      have : s.slots.any (fun sl => sl.id == hd) = true :=
        List.any_eq_true.mpr ⟨sl, hm, by simp [hEq]⟩
      rw [this] at hany
      cases hany

/-- What a successful `createSlot` produced: an id drawn from
`generateSlotId` and free of collisions, the argon2 hash, the
creation-time timestamps, a zero counter, and the insertion. -/
theorem createSlot_some_spec (hash : String → String) (s : StoreState)
    (seeds : List (Fin 3 × (Nat → Fin 10))) (password : String) (now : Nat)
    (s' : StoreState) (slot : Slot)
    (h : createSlot hash s seeds password now = some (s', slot)) :
    (∃ seed ∈ seeds, slot.id = generateSlotId seed.1 seed.2) ∧
    (∀ sl ∈ s.slots, ¬ sl.id = slot.id) ∧
    slot.passwordHash = hash password ∧ slot.createdAt = now ∧
    slot.expiresAt = now + 24 * 60 * 60 * 1000 ∧ slot.failedAttempts = 0 ∧
    s' = { s with slots := slot :: s.slots } := by
  unfold createSlot at h
  cases hfr : freshSlotId s (seeds.map fun p => generateSlotId p.1 p.2) with
  | none => rw [hfr] at h; cases h
  | some c =>
    rw [hfr] at h
    simp only [Option.some.injEq, Prod.mk.injEq] at h
    obtain ⟨hs', hslot⟩ := h
    obtain ⟨hmem, hfree⟩ := freshSlotId_spec s _ c hfr
    obtain ⟨seed, hseed, hgen⟩ := List.mem_map.mp hmem
    subst hslot
    subst hs'
    refine ⟨⟨seed, hseed, hgen.symm⟩, ?_, rfl, rfl, rfl, rfl, rfl⟩
    intro sl hm
    simpa using hfree sl hm

/-- The access handler only ever leaves the `slots` table alone, bumps
the touched row's counter, or drops rows. -/
theorem accessSlot_evolution (verify : String → String → Bool)
    (s : StoreState) (slotId password : String) (now : Nat) :
    slotEvolution s (accessSlot verify s slotId password now).1 := by
  cases hg : getSlot s slotId with
  | none =>
    simp only [accessSlot, hg]
    exact slotEvolution_refl s
  | some slot =>
    simp only [accessSlot, hg]
    by_cases h1 : now > slot.expiresAt
    · simp only [if_pos h1]
      exact slotEvolution_of_subset (deleteSlot_subset s slotId)
    · simp only [if_neg h1]
      cases hv : verifySlotPassword verify s slotId password with
      | true =>
        simp only [hv, Bool.not_true, Bool.false_eq_true, if_false]
        exact slotEvolution_refl s
      | false =>
        simp only [hv, Bool.not_false, if_true]
        split
        · exact slotEvolution_subset_trans (slotEvolution_bump s slotId)
            (deleteSlot_subset _ _)
        · exact slotEvolution_bump s slotId

/-- The upload handler never touches the `slots` table except through
the lazy expiry deletion. -/
theorem uploadSlot_evolution (verify : String → String → Bool)
    (s : StoreState) (slotId password : String) (fups : List FileUpload)
    (text : Option String) (now : Nat) :
    slotEvolution s (uploadSlot verify s slotId password fups text now).1 := by
  cases hg : getSlot s slotId with
  | none =>
    simp only [uploadSlot, hg]
    exact slotEvolution_refl s
  | some slot =>
    simp only [uploadSlot, hg]
    by_cases h1 : now > slot.expiresAt
    · simp only [if_pos h1]
      exact slotEvolution_of_subset (deleteSlot_subset s slotId)
    · simp only [if_neg h1]
      cases hv : verifySlotPassword verify s slotId password with
      | false =>
        simp only [hv, Bool.not_false, if_true]
        exact slotEvolution_refl s
      | true =>
        simp only [hv, Bool.not_true, Bool.false_eq_true, if_false]
        apply slotEvolution_of_slots_eq
        cases text with
        | none => exact foldl_storeUpload_slots fups slotId now s
        | some t =>
          by_cases ht : t.trim = ""
          · simp only [if_pos ht]
            exact foldl_storeUpload_slots fups slotId now s
          · simp only [if_neg ht]
            exact foldl_storeUpload_slots fups slotId now s

/-- The download handler never touches the `slots` table except through
the lazy expiry deletion. -/
theorem downloadRoute_evolution (verify : String → String → Bool)
    (s : StoreState) (slotId fileId password : String) (now : Nat) :
    slotEvolution s (downloadRoute verify s slotId fileId password now).1 := by
  cases hg : getSlot s slotId with
  | none =>
    simp only [downloadRoute, hg]
    exact slotEvolution_refl s
  | some slot =>
    simp only [downloadRoute, hg]
    by_cases h1 : now > slot.expiresAt
    · simp only [if_pos h1]
      exact slotEvolution_of_subset (deleteSlot_subset s slotId)
    · simp only [if_neg h1]
      cases hv : verifySlotPassword verify s slotId password with
      | false =>
        simp only [hv, Bool.not_false, if_true]
        exact slotEvolution_refl s
      | true =>
        simp only [hv, Bool.not_true, Bool.false_eq_true, if_false]
        cases hf : getFile s fileId with
        | none => exact slotEvolution_refl s
        | some f =>
          apply slotEvolution_of_slots_eq
          cases hfs : f.slotId == slotId <;>
            simp only [hfs, Bool.not_true, Bool.not_false, Bool.false_eq_true,
              eq_self_iff_true, if_false, if_true] <;>
            first
              | rfl
              | (split <;> rfl)

/-- The delete handler only drops rows. -/
theorem deleteRoute_evolution (verify : String → String → Bool)
    (s : StoreState) (slotId password : String) (now : Nat) :
    slotEvolution s (deleteRoute verify s slotId password now).1 := by
  cases hg : getSlot s slotId with
  | none =>
    simp only [deleteRoute, hg]
    exact slotEvolution_refl s
  | some slot =>
    simp only [deleteRoute, hg]
    by_cases h1 : now > slot.expiresAt
    · simp only [if_pos h1]
      exact slotEvolution_of_subset (deleteSlot_subset s slotId)
    · simp only [if_neg h1]
      cases hv : verifySlotPassword verify s slotId password with
      | false =>
        simp only [hv, Bool.not_false, if_true]
        exact slotEvolution_refl s
      | true =>
        simp only [hv, Bool.not_true, Bool.false_eq_true, if_false]
        exact slotEvolution_of_subset (deleteSlot_subset s slotId)

/-- The sweep only drops rows. -/
theorem deleteExpiredSlots_evolution (s : StoreState) (now : Nat) :
    slotEvolution s (deleteExpiredSlots s now) :=
  slotEvolution_of_subset (fun sl h => foldl_delete_subset _ _ sl h)

/-- Filtering with the constant-true predicate keeps everything. -/
theorem filter_const_true {α : Type} (l : List α) :
    l.filter (fun _ => true) = l := by
  induction l with
  | nil => rfl
  | cons hd tl ih => simp [List.filter_cons, ih]

/-- C4: cascading deletion removes the slot row, all of the slot's file
rows, its text row and every blob named by one of its file records, and
it is idempotent: a second `deleteSlot` on the same id errors nowhere
and reproduces the same state, treating the already-absent rows and
blobs as already satisfied. -/
theorem deleteSlot_cascading_idempotent (s : StoreState) (slotId : String) :
    getSlot (deleteSlot s slotId) slotId = none ∧
    getFiles (deleteSlot s slotId) slotId = [] ∧
    getTextContent (deleteSlot s slotId) slotId = none ∧
    (∀ b ∈ (deleteSlot s slotId).blobs, ∀ f ∈ getFiles s slotId,
      ¬ f.filename = b) ∧
    deleteSlot (deleteSlot s slotId) slotId = deleteSlot s slotId := by
  refine ⟨getSlot_deleteSlot s slotId, getFiles_deleteSlot s slotId,
    getTextContent_deleteSlot s slotId, ?_, ?_⟩
  · intro b hb f hf hEq
    have h2 := (List.mem_filter.mp hb).2
    simp only [Bool.not_eq_true'] at h2
    have h3 : (getFiles s slotId).any (fun f0 => f0.filename == b) = true :=
      List.any_eq_true.mpr ⟨f, hf, by simp [hEq]⟩
    rw [h3] at h2
    cases h2
  · apply StoreState.ext
    · exact filter_self_idem s.slots (fun sl => ! (sl.id == slotId))
    · exact filter_self_idem s.files (fun f => ! (f.slotId == slotId))
    · exact filter_self_idem s.texts (fun t => ! (t.slotId == slotId))
    · show (deleteSlot s slotId).blobs.filter
          (fun b => ! (getFiles (deleteSlot s slotId) slotId).any
            (fun f => f.filename == b)) =
        (deleteSlot s slotId).blobs
      rw [getFiles_deleteSlot]
      simp only [List.any_nil, Bool.not_false]
      exact filter_const_true _

/-- C3: on every access path — read, upload, download, explicit delete —
a slot past its expiry (`Date.now() > slot.expiresAt`) is deleted
through the cascading path and the request answers 410 Expired, for any
supplied password, the correct one included; the post-state is exactly
`deleteSlot s slotId`, so no read or write beyond the check happened. -/
theorem expired_slot_blocked
    (verify : String → String → Bool) (s : StoreState)
    (slotId fileId password : String) (fups : List FileUpload)
    (text : Option String) (now : Nat) (slot : Slot)
    (hfind : getSlot s slotId = some slot)
    (hexp : now > slot.expiresAt) :
    accessSlot verify s slotId password now = (deleteSlot s slotId, .expired) ∧
    uploadSlot verify s slotId password fups text now =
      (deleteSlot s slotId, .expired) ∧
    downloadRoute verify s slotId fileId password now =
      (deleteSlot s slotId, .expired) ∧
    deleteRoute verify s slotId password now =
      (deleteSlot s slotId, .expired) := by
  refine ⟨?_, ?_, ?_, ?_⟩ <;>
    simp [accessSlot, uploadSlot, downloadRoute, deleteRoute, hfind, hexp]

/-- C3 witness: a concrete expired slot is deleted and answers 410 on
all four paths even though the password supplied is the correct one. -/
theorem expired_slot_blocked_witness :
    accessSlot demoVerify expState "111111" "pw" 200 =
      (deleteSlot expState "111111", .expired) ∧
    uploadSlot demoVerify expState "111111" "pw" [] none 200 =
      (deleteSlot expState "111111", .expired) ∧
    downloadRoute demoVerify expState "111111" "f" "pw" 200 =
      (deleteSlot expState "111111", .expired) ∧
    deleteRoute demoVerify expState "111111" "pw" 200 =
      (deleteSlot expState "111111", .expired) :=
  expired_slot_blocked demoVerify expState "111111" "f" "pw" [] none 200
    expSlot (by decide) (by decide)

/-- C6: a successful access answers the store unchanged and a body
holding exactly the sanitized slot — `id`, `createdAt`, `expiresAt`, the
`PublicSlot` shape having no `passwordHash` or `failedAttempts` field —
together with the slot's file records and text record. -/
theorem access_response_sanitized
    (verify : String → String → Bool) (s : StoreState)
    (slotId password : String) (now : Nat) (slot : Slot)
    (hfind : getSlot s slotId = some slot)
    (hlive : ¬ now > slot.expiresAt)
    (hok : verify slot.passwordHash password = true) :
    accessSlot verify s slotId password now =
      (s, .accessOk
        { id := slot.id, createdAt := slot.createdAt, expiresAt := slot.expiresAt }
        (getFiles s slotId) (getTextContent s slotId)) := by
  have hv : verifySlotPassword verify s slotId password = true := by
    simp [verifySlotPassword, hfind, hok]
  simp [accessSlot, hfind, hlive, hv, sanitizeSlot]

/-- C6 witness: a concrete successful access disclosing only the three
public fields. -/
theorem access_response_sanitized_witness :
    accessSlot demoVerify cexState "654321" "pw" 5 =
      (cexState, .accessOk
        { id := "654321", createdAt := 0, expiresAt := 86400000 }
        (getFiles cexState "654321") (getTextContent cexState "654321")) :=
  access_response_sanitized demoVerify cexState "654321" "pw" 5 cexSlot
    (by decide) (by decide) (by decide)

/-- C7: accessing a slot whose expiry is in the past answers Expired on
that first touch — deleting the slot as the side effect of detection —
and every later access to the id answers 404 Not Found, so Expired is
seen exactly once. -/
theorem expired_access_once_then_notFound
    (verify : String → String → Bool) (s : StoreState)
    (slotId password : String) (now : Nat) (slot : Slot)
    (hfind : getSlot s slotId = some slot)
    (hpast : slot.expiresAt < now) :
    (accessSlot verify s slotId password now).2 = .expired ∧
    ∀ (verify2 : String → String → Bool) (pw2 : String) (now2 : Nat),
      accessSlot verify2 (accessSlot verify s slotId password now).1 slotId pw2 now2 =
        ((accessSlot verify s slotId password now).1, .notFound) := by
  have he : accessSlot verify s slotId password now =
      (deleteSlot s slotId, .expired) := by
    simp [accessSlot, hfind, hpast]
  refine ⟨by rw [he], ?_⟩
  intro verify2 pw2 now2
  rw [he]
  exact accessSlot_of_getSlot_none verify2 _ slotId pw2 now2
    (getSlot_deleteSlot s slotId)

/-- C7 witness: a concrete expired slot answers Expired once and Not
Found afterwards. -/
theorem expired_access_once_then_notFound_witness :
    (accessSlot demoVerify expState "111111" "pw" 200).2 = .expired ∧
    accessSlot demoVerify (accessSlot demoVerify expState "111111" "pw" 200).1
        "111111" "pw" 300 =
      ((accessSlot demoVerify expState "111111" "pw" 200).1, .notFound) := by
  have h := expired_access_once_then_notFound demoVerify expState "111111" "pw"
    200 expSlot (by decide) (by decide)
  exact ⟨h.1, h.2 demoVerify "pw" 300⟩

/-- When the lazy check does not fire, the access handler never answers
Expired. -/
theorem accessSlot_ne_expired (verify : String → String → Bool)
    (s : StoreState) (slotId password : String) (now : Nat) (slot : Slot)
    (hfind : getSlot s slotId = some slot) (hlive : ¬ now > slot.expiresAt) :
    (accessSlot verify s slotId password now).2 ≠ .expired := by
  simp only [accessSlot, hfind, if_neg hlive]
  cases hv : verifySlotPassword verify s slotId password with
  | true => simp [hv]
  | false =>
    simp only [hv, Bool.not_false, if_true]
    split <;> simp

/-- When the lazy check does not fire, the upload handler never answers
Expired. -/
theorem uploadSlot_ne_expired (verify : String → String → Bool)
    (s : StoreState) (slotId password : String) (fups : List FileUpload)
    (text : Option String) (now : Nat) (slot : Slot)
    (hfind : getSlot s slotId = some slot) (hlive : ¬ now > slot.expiresAt) :
    (uploadSlot verify s slotId password fups text now).2 ≠ .expired := by
  simp only [uploadSlot, hfind, if_neg hlive]
  cases hv : verifySlotPassword verify s slotId password with
  | true =>
    simp only [hv, Bool.not_true, Bool.false_eq_true, if_false]
    cases text with
    | none => simp
    | some t => simp
  | false => simp [hv]

/-- When the lazy check does not fire, the download handler never
answers Expired. -/
theorem downloadRoute_ne_expired (verify : String → String → Bool)
    (s : StoreState) (slotId fileId password : String) (now : Nat) (slot : Slot)
    (hfind : getSlot s slotId = some slot) (hlive : ¬ now > slot.expiresAt) :
    (downloadRoute verify s slotId fileId password now).2 ≠ .expired := by
  simp only [downloadRoute, hfind, if_neg hlive]
  cases hv : verifySlotPassword verify s slotId password with
  | true =>
    simp only [hv, Bool.not_true, Bool.false_eq_true, if_false]
    cases hf : getFile s fileId with
    | none => simp
    | some f =>
      cases hfs : f.slotId == slotId <;>
        simp only [hfs, Bool.not_true, Bool.not_false, Bool.false_eq_true,
          eq_self_iff_true, if_false, if_true] <;>
        first
          | (split <;> simp)
          | simp
  | false => simp [hv]

/-- When the lazy check does not fire, the delete handler never answers
Expired. -/
theorem deleteRoute_ne_expired (verify : String → String → Bool)
    (s : StoreState) (slotId password : String) (now : Nat) (slot : Slot)
    (hfind : getSlot s slotId = some slot) (hlive : ¬ now > slot.expiresAt) :
    (deleteRoute verify s slotId password now).2 ≠ .expired := by
  simp only [deleteRoute, hfind, if_neg hlive]
  cases hv : verifySlotPassword verify s slotId password with
  | true => simp [hv]
  | false => simp [hv]

/-- C10: at the boundary instant `now = expiresAt` every request path
still serves the slot — the lazy check is the strict `now > expiresAt`
and does not fire, so no path answers Expired — while the sweep's
non-strict query `expiresAt <= now` selects the very same slot and the
sweep deletes it. -/
theorem expiry_boundary_live_and_sweepable
    (verify : String → String → Bool) (s : StoreState)
    (slotId fileId password : String) (fups : List FileUpload)
    (text : Option String) (slot : Slot)
    (hfind : getSlot s slotId = some slot) :
    (accessSlot verify s slotId password slot.expiresAt).2 ≠ .expired ∧
    (uploadSlot verify s slotId password fups text slot.expiresAt).2 ≠ .expired ∧
    (downloadRoute verify s slotId fileId password slot.expiresAt).2 ≠ .expired ∧
    (deleteRoute verify s slotId password slot.expiresAt).2 ≠ .expired ∧
    slot ∈ getExpiredSlots s slot.expiresAt ∧
    getSlot (deleteExpiredSlots s slot.expiresAt) slotId = none := by
  have hlive : ¬ slot.expiresAt > slot.expiresAt := lt_irrefl _
  exact ⟨accessSlot_ne_expired verify s slotId password _ slot hfind hlive,
    uploadSlot_ne_expired verify s slotId password fups text _ slot hfind hlive,
    downloadRoute_ne_expired verify s slotId fileId password _ slot hfind hlive,
    deleteRoute_ne_expired verify s slotId password _ slot hfind hlive,
    List.mem_filter.mpr ⟨getSlot_mem hfind, by simp⟩,
    getSlot_deleteExpiredSlots s slot.expiresAt slotId slot hfind (le_refl _)⟩

/-- C10 witness: a concrete slot at its expiry instant is servable on
all four paths yet selected and deleted by the sweep. -/
theorem expiry_boundary_live_and_sweepable_witness :
    (accessSlot demoVerify expState "111111" "pw" 100).2 ≠ .expired ∧
    (uploadSlot demoVerify expState "111111" "pw" [] none 100).2 ≠ .expired ∧
    (downloadRoute demoVerify expState "111111" "f" "pw" 100).2 ≠ .expired ∧
    (deleteRoute demoVerify expState "111111" "pw" 100).2 ≠ .expired ∧
    expSlot ∈ getExpiredSlots expState 100 ∧
    getSlot (deleteExpiredSlots expState 100) "111111" = none :=
  expiry_boundary_live_and_sweepable demoVerify expState "111111" "f" "pw"
    [] none expSlot (by decide)

/-- C1: on the access path each failed password verification bumps the
slot's `failedAttempts` by exactly one; while the new count is below 3
the handler answers 401 with the remaining-attempts count, and the
moment the count reaches 3 the slot is deleted through the cascading
path, the answer is the 403 "slot deleted" response — not a mere
rejection — and any later access to the id, whatever the password (the
correct one included), answers 404 Not Found. -/
theorem accessSlot_lockout
    (verify : String → String → Bool) (s : StoreState)
    (slotId password : String) (now : Nat) (slot : Slot)
    (hfind : getSlot s slotId = some slot)
    (hlive : ¬ now > slot.expiresAt)
    (hwrong : verify slot.passwordHash password = false) :
    (slot.failedAttempts + 1 < 3 →
      accessSlot verify s slotId password now =
        ({ s with slots := bumpSlots s.slots slotId },
         .invalidPasswordMsg (3 - ((slot.failedAttempts + 1 : Nat) : Int))) ∧
      getSlot (accessSlot verify s slotId password now).1 slotId =
        some { slot with failedAttempts := slot.failedAttempts + 1 }) ∧
    (3 ≤ slot.failedAttempts + 1 →
      (accessSlot verify s slotId password now).2 = .lockedDeleted ∧
      getSlot (accessSlot verify s slotId password now).1 slotId = none ∧
      ∀ (pw2 : String) (now2 : Nat),
        accessSlot verify (accessSlot verify s slotId password now).1
            slotId pw2 now2 =
          ((accessSlot verify s slotId password now).1, .notFound)) := by
  have hv : verifySlotPassword verify s slotId password = false := by
    simp [verifySlotPassword, hfind, hwrong]
  have hinc := incrementFailedAttempts_spec s slotId slot hfind
  constructor
  · intro hlt
    have hcond : ¬ ((3 : Int) - ((slot.failedAttempts + 1 : Nat) : Int) ≤ 0) := by
      omega
    have e1 : accessSlot verify s slotId password now =
        ({ s with slots := bumpSlots s.slots slotId },
         .invalidPasswordMsg (3 - ((slot.failedAttempts + 1 : Nat) : Int))) := by
      simp [accessSlot, hfind, hlive, hv, hinc, hcond]
      omega
    refine ⟨e1, ?_⟩
    rw [e1]
    exact getSlot_bumpSlots s slotId slot hfind
  · intro hge
    have hcond : (3 : Int) - ((slot.failedAttempts + 1 : Nat) : Int) ≤ 0 := by
      omega
    have e2 : accessSlot verify s slotId password now =
        (deleteSlot { s with slots := bumpSlots s.slots slotId } slotId,
         .lockedDeleted) := by
      simp [accessSlot, hfind, hlive, hv, hinc, hcond]
      omega
    refine ⟨by rw [e2], ?_, ?_⟩
    · rw [e2]
      exact getSlot_deleteSlot _ slotId
    · intro pw2 now2
      rw [e2]
      exact accessSlot_of_getSlot_none verify _ slotId pw2 now2
        (getSlot_deleteSlot _ slotId)

/-- C1 witness: a slot at `failedAttempts = 2` receives a third wrong
password, is deleted with the 403 "slot deleted" answer, and the next
access with the correct password answers 404. -/
theorem accessSlot_lockout_witness :
    (accessSlot demoVerify lockState "123456" "bad" 5).2 = .lockedDeleted ∧
    getSlot (accessSlot demoVerify lockState "123456" "bad" 5).1 "123456" =
      none ∧
    accessSlot demoVerify (accessSlot demoVerify lockState "123456" "bad" 5).1
        "123456" "pw" 6 =
      ((accessSlot demoVerify lockState "123456" "bad" 5).1, .notFound) := by
  have h := (accessSlot_lockout demoVerify lockState "123456" "bad" 5 lockSlot
    (by decide) (by decide) (by decide)).2 (by decide)
  exact ⟨h.1, h.2.1, h.2.2 "pw" 6⟩

/-- C2 counterexample: the upload path rejects a wrong password with
the plain 401 yet leaves the slot's `failedAttempts` at 0 — the wrong
password was not counted there, contradicting "incremented on every
path". -/
theorem upload_wrong_password_uncounted :
    (uploadSlot demoVerify cexState "654321" "bad" [] none 5).2 =
      .invalidPassword ∧
    getSlot (uploadSlot demoVerify cexState "654321" "bad" [] none 5).1
      "654321" = some cexSlot := by
  constructor
  · decide
  · decide

/-- C2 (amended): a wrong password is counted only on the access (read)
path. Upload, download and explicit delete reject a wrong password with
the plain 401 and leave the store completely unchanged, while the
access path bumps `failedAttempts` by one (the row remaining with the
bumped count below the threshold, and the slot being deleted at it). -/
theorem wrong_password_counted_only_on_access
    (verify : String → String → Bool) (s : StoreState)
    (slotId fileId password : String) (fups : List FileUpload)
    (text : Option String) (now : Nat) (slot : Slot)
    (hfind : getSlot s slotId = some slot)
    (hlive : ¬ now > slot.expiresAt)
    (hwrong : verify slot.passwordHash password = false) :
    uploadSlot verify s slotId password fups text now = (s, .invalidPassword) ∧
    downloadRoute verify s slotId fileId password now = (s, .invalidPassword) ∧
    deleteRoute verify s slotId password now = (s, .invalidPassword) ∧
    (incrementFailedAttempts s slotId).2 = slot.failedAttempts + 1 ∧
    getSlot (accessSlot verify s slotId password now).1 slotId =
      (if 3 ≤ slot.failedAttempts + 1 then none
       else some { slot with failedAttempts := slot.failedAttempts + 1 }) := by
  have hv : verifySlotPassword verify s slotId password = false := by
    simp [verifySlotPassword, hfind, hwrong]
  have hinc := incrementFailedAttempts_spec s slotId slot hfind
  refine ⟨?_, ?_, ?_, ?_, ?_⟩
  · simp [uploadSlot, hfind, hlive, hv]
  · simp [downloadRoute, hfind, hlive, hv]
  · simp [deleteRoute, hfind, hlive, hv]
  · rw [hinc]
  · by_cases hge : 3 ≤ slot.failedAttempts + 1
    · rw [if_pos hge]
      have hcond : (3 : Int) - ((slot.failedAttempts + 1 : Nat) : Int) ≤ 0 := by
        omega
      have e2 : accessSlot verify s slotId password now =
          (deleteSlot { s with slots := bumpSlots s.slots slotId } slotId,
           .lockedDeleted) := by
        simp [accessSlot, hfind, hlive, hv, hinc, hcond]
        omega
      rw [e2]
      exact getSlot_deleteSlot _ slotId
    · rw [if_neg hge]
      have hcond : ¬ ((3 : Int) - ((slot.failedAttempts + 1 : Nat) : Int) ≤ 0) := by
        omega
      have e1 : accessSlot verify s slotId password now =
          ({ s with slots := bumpSlots s.slots slotId },
           .invalidPasswordMsg (3 - ((slot.failedAttempts + 1 : Nat) : Int))) := by
        simp [accessSlot, hfind, hlive, hv, hinc, hcond]
        omega
      rw [e1]
      exact getSlot_bumpSlots s slotId slot hfind

/-- C2 witness: concretely, wrong passwords on upload, download and
delete leave the store untouched while the access path counts one. -/
theorem wrong_password_counted_only_on_access_witness :
    uploadSlot demoVerify cexState "654321" "bad" [] none 5 =
      (cexState, .invalidPassword) ∧
    downloadRoute demoVerify cexState "654321" "f1" "bad" 5 =
      (cexState, .invalidPassword) ∧
    deleteRoute demoVerify cexState "654321" "bad" 5 =
      (cexState, .invalidPassword) ∧
    (incrementFailedAttempts cexState "654321").2 = cexSlot.failedAttempts + 1 ∧
    getSlot (accessSlot demoVerify cexState "654321" "bad" 5).1 "654321" =
      (if 3 ≤ cexSlot.failedAttempts + 1 then none
       else some { cexSlot with failedAttempts := cexSlot.failedAttempts + 1 }) :=
  wrong_password_counted_only_on_access demoVerify cexState "654321" "f1"
    "bad" [] none 5 cexSlot (by decide) (by decide) (by decide)

/-- C5: at creation `expiresAt = createdAt + 24h` and `failedAttempts
= 0`; thereafter every operation of the server — access, upload,
download, explicit delete, and the sweep — leaves every surviving slot
row's `id`, `passwordHash`, `createdAt` and `expiresAt` unchanged and
either keeps `failedAttempts` or increments it by exactly one; no path
resets or decreases it short of deleting the slot. -/
theorem slot_fields_invariant
    (verify : String → String → Bool) (hash : String → String)
    (s : StoreState) (slotId fileId password pw : String)
    (fups : List FileUpload) (text : Option String)
    (seeds : List (Fin 3 × (Nat → Fin 10))) (now : Nat) :
    slotEvolution s (accessSlot verify s slotId password now).1 ∧
    slotEvolution s (uploadSlot verify s slotId password fups text now).1 ∧
    slotEvolution s (downloadRoute verify s slotId fileId password now).1 ∧
    slotEvolution s (deleteRoute verify s slotId password now).1 ∧
    slotEvolution s (deleteExpiredSlots s now) ∧
    (∀ (s' : StoreState) (slot : Slot),
      createSlot hash s seeds pw now = some (s', slot) →
      slot.expiresAt = slot.createdAt + 24 * 60 * 60 * 1000 ∧
      slot.failedAttempts = 0 ∧ s' = { s with slots := slot :: s.slots }) := by
  refine ⟨accessSlot_evolution verify s slotId password now,
    uploadSlot_evolution verify s slotId password fups text now,
    downloadRoute_evolution verify s slotId fileId password now,
    deleteRoute_evolution verify s slotId password now,
    deleteExpiredSlots_evolution s now, ?_⟩
  intro s' slot h
  obtain ⟨-, -, -, hc, he, hf, hs⟩ := createSlot_some_spec hash s seeds pw now s' slot h
  exact ⟨by rw [he, hc], hf, hs⟩

/-- C8: every id a successful `createSlot` returns is a string of 6, 7
or 8 decimal digits, and at the moment of creation it differs from the
id of every live slot in the store (the generator retried until free of
collisions). -/
theorem createSlot_id_format_unique
    (hash : String → String) (s : StoreState)
    (seeds : List (Fin 3 × (Nat → Fin 10))) (password : String) (now : Nat)
    (s' : StoreState) (slot : Slot)
    (h : createSlot hash s seeds password now = some (s', slot)) :
    (6 ≤ slot.id.length ∧ slot.id.length ≤ 8) ∧
    (∀ c ∈ slot.id.data, c.isDigit = true) ∧
    (∀ sl ∈ s.slots, ¬ sl.id = slot.id) := by
  obtain ⟨⟨seed, -, hgen⟩, hfree, -⟩ :=
    createSlot_some_spec hash s seeds password now s' slot h
  refine ⟨?_, ?_, hfree⟩
  · rw [hgen, generateSlotId_length]
    have := seed.1.isLt
    omega
  · intro c hc
    rw [hgen] at hc
    exact generateSlotId_digits seed.1 seed.2 c hc

/-- C8 witness: a concrete creation in the empty store yields the
6-digit id "555555", all digits, colliding with nothing. -/
theorem createSlot_id_format_unique_witness :
    (6 ≤ demoCreatedSlot.id.length ∧ demoCreatedSlot.id.length ≤ 8) ∧
    (∀ c ∈ demoCreatedSlot.id.data, c.isDigit = true) ∧
    (∀ sl ∈ emptyState.slots, ¬ sl.id = demoCreatedSlot.id) :=
  createSlot_id_format_unique demoHash emptyState demoSeeds "abcd" 0
    { emptyState with slots := [demoCreatedSlot] } demoCreatedSlot (by decide)

/-- C9: two concurrent wrong-password access requests against a slot
with `failedAttempts = 2`, under every interleaving of their atomic SQL
steps (the `UPDATE` increment is serialized by the store), end with the
slot deleted, with exactly one `DELETE FROM slots` run actually
removing the row — no double deletion and no surviving slot with an
over-threshold counter — and with at least one of the two requests
answering the 403 lockout response. -/
theorem concurrent_lockout_exact :
    ∀ sched ∈ interleavings 4 4,
      (lockoutRun sched lockoutInit).1.counter = none ∧
      (lockoutRun sched lockoutInit).1.effectiveDeletes = 1 ∧
      ((lockoutRun sched lockoutInit).2.1.locked = some true ∨
        (lockoutRun sched lockoutInit).2.2.locked = some true) := by
  decide

/-- C9 witness: the fully sequential schedule — handler A runs to
completion, then handler B — deletes the slot exactly once. -/
theorem concurrent_lockout_exact_witness :
    (lockoutRun [true, true, true, true, false, false, false, false]
      lockoutInit).1.counter = none ∧
    (lockoutRun [true, true, true, true, false, false, false, false]
      lockoutInit).1.effectiveDeletes = 1 ∧
    ((lockoutRun [true, true, true, true, false, false, false, false]
      lockoutInit).2.1.locked = some true ∨
      (lockoutRun [true, true, true, true, false, false, false, false]
        lockoutInit).2.2.locked = some true) :=
  concurrent_lockout_exact
    [true, true, true, true, false, false, false, false] (by decide)

end SecureShare
